import Mathlib

/-!
Film-React: `src/components/AllMovies.jsx`.

A shallow embedding of the page fetcher (`fetchMoviePage`), the next-page rule
(`getNextPageParam`), the intersection handler (`handleObserver`), the observer
effect and the render function of the `AllMovies` component, followed by the
properties of the pagination session built from them.

Conventions of the embedding.

* JavaScript numbers that carry page numbers are natural numbers (page numbers
  stay far below `2^53`, where `n + 1` and the decimal rendering are exact).
* A JavaScript string that comes from outside (the search term) is a sequence
  of UTF-16 code units (`JSString`), which may hold unpaired surrogates; text
  that the code itself writes (URLs, messages) is a `String`; `undefined` is
  `none`.
* An `async` function becomes a function returning the list of external calls
  it made, in order, together with `Except`: `.error msg` is a rejected promise
  whose error has message `msg`.
* The collaborators that live outside the file (`fetch`, `Response.json`,
  `updateSearchCount`) are fields of an environment `Env`.
-/

deriving instance DecidableEq for Except

namespace AllMovies

/-! ## Data model -/

/-- A catalog record; only `id` is used by the component (as render key). -/
structure Movie where
  id : Nat
  title : String
deriving DecidableEq, Repr

/-- The parsed response body: `data.results` and `data.total_pages`, each of
which may be missing (`undefined`). -/
structure Data where
  results : Option (List Movie)
  total_pages : Option Nat
deriving DecidableEq, Repr

/-- The transport response: `response.ok` and the outcome of
`response.json()`. -/
structure Response where
  ok : Bool
  json : Except String Data

/-- The object returned by `fetchMoviePage` (lines 36-40). -/
structure PageRecord where
  movies : Option (List Movie)
  nextPage : Nat
  totalPages : Option Nat
deriving DecidableEq, Repr

/-- A UTF-16 code unit. -/
abbrev CodeUnit := Fin 65536

/-- A JavaScript string: any sequence of UTF-16 code units. -/
abbrev JSString := List CodeUnit

/-- External calls made by the component, in the order they happen. A `fetch`
is recorded with its URL; the options of lines 9-15 are the same on every
call. `consoleLog` is line 24, which logs the response object. -/
inductive Effect where
  | fetch (url : String)
  | consoleLog
  | updateSearchCount (query : JSString) (movie : Movie)
  | fetchNextPage
deriving DecidableEq, Repr

/-- The collaborators of `fetchMoviePage`: the transport (`fetch`, rejecting
with `.error`) and the analytics call imported from `../appwrite`. -/
structure Env where
  fetch : String → Except String Response
  updateSearchCount : JSString → Movie → Except String Unit

/-- The query key `["movies", searchTerm]` (line 47). -/
abbrev QueryKey := String × Option JSString

/-! ## URL construction -/

/-- Line 7. -/
def API_BASE_URL : String := "https://api.themoviedb.org/3"

/-- The code unit with the given number. -/
def codeUnit (n : Nat) : CodeUnit :=
  ⟨n % 65536, Nat.mod_lt n (by decide)⟩

/-- The UTF-16 code units of a Unicode character: one unit in the basic plane,
a surrogate pair above it. -/
def utf16Char (c : Char) : List CodeUnit :=
  if c.toNat < 0x10000 then [codeUnit c.toNat]
  else
    [codeUnit (0xD800 + (c.toNat - 0x10000) / 0x400),
     codeUnit (0xDC00 + (c.toNat - 0x10000) % 0x400)]

/-- The JavaScript string that holds a given Unicode text. -/
def utf16 (s : String) : JSString :=
  s.toList.flatMap utf16Char

/-- Code units that `encodeURIComponent` leaves alone: ASCII digits and letters
and the marks `-_.!~*'()`. -/
def uriUnreserved (u : Nat) : Bool :=
  (48 ≤ u && u ≤ 57) || (65 ≤ u && u ≤ 90) || (97 ≤ u && u ≤ 122) ||
    [45, 95, 46, 33, 126, 42, 39, 40, 41].contains u

/-- A leading (high) surrogate. -/
def isLeadSurrogate (u : Nat) : Bool :=
  0xD800 ≤ u && u ≤ 0xDBFF

/-- A trailing (low) surrogate. -/
def isTrailSurrogate (u : Nat) : Bool :=
  0xDC00 ≤ u && u ≤ 0xDFFF

/-- One hexadecimal digit, upper case. -/
def hexDigit (n : Nat) : Char :=
  "0123456789ABCDEF".toList.getD n '0'

/-- The UTF-8 bytes of a code point. -/
def utf8Bytes (c : Nat) : List Nat :=
  if c < 0x80 then [c]
  else if c < 0x800 then [0xC0 + c / 64, 0x80 + c % 64]
  else if c < 0x10000 then [0xE0 + c / 4096, 0x80 + (c / 64) % 64, 0x80 + c % 64]
  else [0xF0 + c / 262144, 0x80 + (c / 4096) % 64, 0x80 + (c / 64) % 64, 0x80 + c % 64]

/-- A byte as `%XX`. -/
def percentByte (b : Nat) : List Char :=
  ['%', hexDigit (b / 16), hexDigit (b % 16)]

/-- The escape of a code point: its UTF-8 bytes, each as `%XX`. -/
def percentEncode (cp : Nat) : List Char :=
  (utf8Bytes cp).flatMap percentByte

/-- Output so far, put in front of the escape of the rest, which may have
thrown. -/
def prepend (cs : List Char) : Except String (List Char) → Except String (List Char)
  | .ok rest => .ok (cs ++ rest)
  | .error e => .error e

/-- The escape of a sequence of code units (ECMAScript `Encode`): an unreserved
unit is copied, a surrogate pair is escaped as its code point, any other unit
as itself, and an unpaired surrogate throws a `URIError`. -/
def encodeUnits : JSString → Except String (List Char)
  | [] => .ok []
  | u :: rest =>
    if uriUnreserved u.val then prepend [Char.ofNat u.val] (encodeUnits rest)
    else if isLeadSurrogate u.val then
      match rest with
      | v :: rest2 =>
        if isTrailSurrogate v.val then
          prepend (percentEncode ((u.val - 0xD800) * 0x400 + (v.val - 0xDC00) + 0x10000))
            (encodeUnits rest2)
        else .error "URI malformed"
      | [] => .error "URI malformed"
    else if isTrailSurrogate u.val then .error "URI malformed"
    else prepend (percentEncode u.val) (encodeUnits rest)

/-- The ECMAScript builtin `encodeURIComponent`; `.error` is the `URIError` it
throws on a string with an unpaired surrogate. -/
def encodeURIComponent (s : JSString) : Except String String :=
  match encodeUnits s with
  | .ok cs => .ok (String.mk cs)
  | .error e => .error e

/-- Truthiness of `query` (line 19, line 32): a string is truthy unless it is
empty, `undefined` is falsy. -/
def truthy : Option JSString → Bool
  | none => false
  | some s => !s.isEmpty

/-- Lines 19-21: the endpoint for a query and a (defaulted) page parameter;
`.error` when `encodeURIComponent` throws. -/
def endpoint (query : Option JSString) (pageParam : Nat) : Except String String :=
  match query with
  | some q =>
    if truthy (some q) then
      match encodeURIComponent q with
      | .error e => .error e
      | .ok escaped =>
        .ok (API_BASE_URL ++ "/search/movie?query=" ++ escaped ++ "&page=" ++ toString pageParam)
    else
      .ok (API_BASE_URL ++ "/discover/movie?sort_by=popularity.desc&page=" ++ toString pageParam)
  | none =>
    .ok (API_BASE_URL ++ "/discover/movie?sort_by=popularity.desc&page=" ++ toString pageParam)

/-! ## The page fetcher -/

/-- Line 32: `data.results?.length > 0`, with the first element when it holds. -/
def firstResult (data : Data) : Option Movie :=
  match data.results with
  | some (m :: _) => some m
  | _ => none

/-- Lines 17-41. `pageParam = none` is the missing page parameter, which the
destructuring default turns into `1`. When building the endpoint throws, no
request has been made. -/
def fetchMoviePage (env : Env) (pageParam : Option Nat) (queryKey : QueryKey) :
    List Effect × Except String PageRecord :=
  let pageParam := pageParam.getD 1
  let query := queryKey.2
  match endpoint query pageParam with
  | .error e => ([], .error e)
  | .ok url =>
    match env.fetch url with
    | .error e => ([.fetch url], .error e)
    | .ok response =>
      if !response.ok then
        ([.fetch url, .consoleLog], .error "Failed to fetch movies")
      else
        match response.json with
        | .error e => ([.fetch url, .consoleLog], .error e)
        | .ok data =>
          let page : PageRecord :=
            { movies := data.results, nextPage := pageParam + 1, totalPages := data.total_pages }
          match query, firstResult data with
          | some q, some m =>
            if truthy (some q) then
              match env.updateSearchCount q m with
              | .error e => ([.fetch url, .consoleLog, .updateSearchCount q m], .error e)
              | .ok _ => ([.fetch url, .consoleLog, .updateSearchCount q m], .ok page)
            else ([.fetch url, .consoleLog], .ok page)
          | _, _ => ([.fetch url, .consoleLog], .ok page)

/-- The analytics calls of a trace, with their arguments. -/
def analyticsCalls : List Effect → List (JSString × Movie)
  | [] => []
  | .updateSearchCount q m :: t => (q, m) :: analyticsCalls t
  | _ :: t => analyticsCalls t

/-- The URLs requested in a trace. -/
def requestedUrls : List Effect → List String
  | [] => []
  | .fetch url :: t => url :: requestedUrls t
  | _ :: t => requestedUrls t

/-! ## The next-page rule and the intersection handler -/

/-- The comparison `pages.length < lastPage.totalPages` of line 50: a comparison
with `undefined` is false. -/
def ltTotal (len : Nat) : Option Nat → Bool
  | some t => decide (len < t)
  | none => false

/-- Lines 49-54. `none` is `undefined`: no next page. -/
def getNextPageParam (lastPage : PageRecord) (pages : List PageRecord) : Option Nat :=
  if ltTotal pages.length lastPage.totalPages then some lastPage.nextPage else none

/-- An `IntersectionObserverEntry`, of which only `isIntersecting` is read. -/
structure Entry where
  isIntersecting : Bool
deriving DecidableEq, Repr

/-- Lines 58-66. The callback reads the first entry only; on an empty entry
list `target` is `undefined` and reading `target.isIntersecting` throws. -/
def handleObserver (hasNextPage isFetchingNextPage : Bool) (entries : List Entry) :
    Except String (List Effect) :=
  match entries with
  | [] => .error "TypeError: Cannot read properties of undefined (reading 'isIntersecting')"
  | target :: _ =>
    if target.isIntersecting && hasNextPage && !isFetchingNextPage then
      .ok [.fetchNextPage]
    else
      .ok []

/-! ## Rendering and the observer effect -/

/-- The content of the sentinel `div` (lines 96-102). -/
inductive LoadingMore where
  | spinner
  | p (text : String)
deriving DecidableEq, Repr

/-- A `MovieCard` element with its `key`. -/
structure MovieCard where
  key : Nat
  movie : Movie
deriving DecidableEq, Repr

/-- The three alternatives below the heading (lines 87-105). `listing` is the
fragment made of the `ul` (absent when `data` is `undefined`) and the sentinel
`div` that carries `ref={observerTarget}`. -/
inductive Body where
  | spinner
  | errorText (className : String) (text : String)
  | listing (ul : Option (List (List MovieCard))) (sentinel : LoadingMore)
deriving DecidableEq, Repr

/-- The rendered `section`: its heading and its body. -/
structure View where
  heading : String
  body : Body
deriving DecidableEq, Repr

/-- Line 93, inner map: `page.movies.map(...)`; throws when `movies` is
`undefined`. -/
def renderPage (page : PageRecord) : Except String (List MovieCard) :=
  match page.movies with
  | none => .error "TypeError: Cannot read properties of undefined (reading 'map')"
  | some ms => .ok (ms.map fun m => { key := m.id, movie := m })

/-- Line 93, outer map over `data.pages`. -/
def renderPages : List PageRecord → Except String (List (List MovieCard))
  | [] => .ok []
  | p :: ps =>
    match renderPage p with
    | .error e => .error e
    | .ok cards =>
      match renderPages ps with
      | .error e => .error e
      | .ok rest => .ok (cards :: rest)

/-- Lines 83-107: the element returned by `AllMovies`, from the values that
`useInfiniteQuery` hands to the component. `data = none` is `undefined`. -/
def render (status : String) (error : Option String) (data : Option (List PageRecord))
    (hasNextPage isFetchingNextPage : Bool) : Except String View :=
  if status = "loading" then
    .ok { heading := "All Movies", body := .spinner }
  else if status = "error" then
    match error with
    | none => .error "TypeError: Cannot read properties of null (reading 'message')"
    | some message => .ok { heading := "All Movies", body := .errorText "text-red-500" message }
  else
    let sentinel : LoadingMore :=
      if isFetchingNextPage then .spinner
      else if hasNextPage then .p "Loading more movies..."
      else .p "No more movies to load."
    match data with
    | none => .ok { heading := "All Movies", body := .listing none sentinel }
    | some pages =>
      match renderPages pages with
      | .error e => .error e
      | .ok cards => .ok { heading := "All Movies", body := .listing (some cards) sentinel }

/-- The value of `observerTarget.current` after a render has been committed:
the sentinel `div` is mounted exactly in the `listing` alternative. -/
def observerTargetCurrent : Except String View → Bool
  | .ok { heading := _, body := .listing _ _ } => true
  | _ => false

/-- The movies shown by a view, in order. -/
def shownMovies : Except String View → List Movie
  | .ok { heading := _, body := .listing (some cards) _ } => (cards.flatten).map MovieCard.movie
  | _ => []

/-- Operations on the platform observer. -/
inductive ObserverOp where
  | create (rootMargin : String) (threshold : Nat)
  | observe
  | unobserve
deriving DecidableEq, Repr

/-- Lines 68-78: the effect body, given whether `observerTarget.current` is an
element. -/
def observerEffect (element : Bool) : List ObserverOp :=
  .create "20px" 0 :: (if element then [.observe] else [])

/-- Lines 79-81: the cleanup returned by the effect. -/
def observerCleanup (element : Bool) : List ObserverOp :=
  if element then [.unobserve] else []

/-! ## The pagination session -/

/-- Modelled from the spec: the three values of `status()` in section 4.2,
kept by the data-fetching library. -/
inductive Status where
  | Pending
  | Ready
  | Failed
deriving DecidableEq, Repr

/-- Modelled from the spec: the `status` string the library hands to the
component. Line 89 reads the Failed state as `"error"`; the label of the
pending state depends on the library version and is a parameter (section 9). -/
def Status.label (pendingLabel : String) : Status → String
  | .Pending => pendingLabel
  | .Ready => "success"
  | .Failed => "error"

/-- Modelled from the spec: the Session State of section 3, owned by the
data-fetching library (`useInfiniteQuery`), which is not part of the
repository. -/
structure Session where
  queryKey : QueryKey
  pages : List PageRecord
  status : Status
  errorMessage : Option String
  isFetchingNext : Bool
deriving DecidableEq, Repr

/-- Modelled from the spec: `hasNextPage()` of the Pagination Controller
(section 4.2), which the library derives from the next-page rule of lines
49-54: a next page exists when the rule yields a cursor for the fetched pages. -/
def hasNextPage (pages : List PageRecord) : Bool :=
  match pages.getLast? with
  | none => false
  | some lastPage => (getNextPageParam lastPage pages).isSome

/-- Modelled from the spec: a fresh Pending session for a query key (section
4.2, "On Query Key change"). -/
def Session.start (queryKey : QueryKey) : Session :=
  { queryKey := queryKey, pages := [], status := .Pending, errorMessage := none,
    isFetchingNext := false }

/-- Modelled from the spec: the initial fetch of a session (section 4.2). The
library calls the page fetcher of lines 17-41 without a page parameter. -/
def Session.fetchFirst (env : Env) (s : Session) : List Effect × Session :=
  match fetchMoviePage env none s.queryKey with
  | (trace, .ok page) =>
    (trace, { s with pages := [page], status := .Ready, errorMessage := none })
  | (trace, .error e) =>
    (trace, { s with status := .Failed, errorMessage := some e })

/-- Modelled from the spec: `fetchNext()` of section 4.2. It does nothing when
there is no next page or a next-page fetch is in flight; otherwise it calls the
page fetcher with the cursor given by the next-page rule, appends the page on
success, and on failure records the message and sets the status to Failed,
leaving the pages as they were. -/
def Session.fetchNext (env : Env) (s : Session) : List Effect × Session :=
  match s.pages.getLast? with
  | none => ([], s)
  | some lastPage =>
    match getNextPageParam lastPage s.pages with
    | none => ([], s)
    | some cursor =>
      if s.isFetchingNext then ([], s)
      else
        match fetchMoviePage env (some cursor) s.queryKey with
        | (trace, .ok page) =>
          (trace, { s with pages := s.pages ++ [page], status := .Ready, errorMessage := none })
        | (trace, .error e) =>
          (trace, { s with status := .Failed, errorMessage := some e })

/-- Modelled from the spec: one more `fetchNext()` (section 4.2) on top of an
accumulated trace. -/
def Session.step (acc : List Effect × Session) (env : Env) : List Effect × Session :=
  (acc.1 ++ (Session.fetchNext env acc.2).1, (Session.fetchNext env acc.2).2)

/-- Modelled from the spec: a session (section 4.2), that is the initial fetch
against `env0`, then one `fetchNext()` per element of `envs`, each against the
collaborators as they are at that moment. The result is the whole trace and
the final state. -/
def Session.run (queryKey : QueryKey) (env0 : Env) (envs : List Env) : List Effect × Session :=
  envs.foldl Session.step (Session.fetchFirst env0 (Session.start queryKey))

/-- Modelled from the spec: the `data` the library hands to the component,
`undefined` until a page has arrived. -/
def Session.data (s : Session) : Option (List PageRecord) :=
  if s.pages.isEmpty then none else some s.pages

/-- Modelled from the spec: `currentItems()` of section 4.2, the movies of all
fetched pages, in order. -/
def Session.currentItems (s : Session) : List Movie :=
  (s.pages.map fun p => p.movies.getD []).flatten

/-- The component rendered on a session state (lines 46-56 feed lines 83-107). -/
def Session.view (pendingLabel : String) (s : Session) : Except String View :=
  render (s.status.label pendingLabel) s.errorMessage s.data (hasNextPage s.pages) s.isFetchingNext

/-- What an intersection event does on a session state: the handler of lines
58-66 runs only if the effect of lines 68-82 observed a mounted sentinel. -/
def Session.onIntersect (pendingLabel : String) (s : Session) (entries : List Entry) :
    Except String (List Effect) :=
  if observerTargetCurrent (s.view pendingLabel) then
    handleObserver (hasNextPage s.pages) s.isFetchingNext entries
  else .ok []

/-- Every fetch against `env` succeeds: the transport answers with a success
status, the body parses, and the analytics call returns. -/
def Env.Succeeds (env : Env) : Prop :=
  (∀ url, ∃ response data, env.fetch url = .ok response ∧ response.ok = true ∧
    response.json = .ok data) ∧
  ∀ q m, env.updateSearchCount q m = .ok ()

/-- Every fetch against `env` succeeds and reports `total_pages = n`. -/
def Env.SucceedsWithTotal (env : Env) (n : Nat) : Prop :=
  (∀ url, ∃ response data, env.fetch url = .ok response ∧ response.ok = true ∧
    response.json = .ok data ∧ data.total_pages = some n) ∧
  ∀ q m, env.updateSearchCount q m = .ok ()

/-- A catalog that answers every request with the given body, and an analytics
call that returns. -/
def Env.serving (data : Data) : Env :=
  { fetch := fun _ => .ok { ok := true, json := .ok data },
    updateSearchCount := fun _ _ => .ok () }

/-- A catalog that answers every request with the given body, and an analytics
call that throws the given message. -/
def Env.analyticsThrows (data : Data) (message : String) : Env :=
  { fetch := fun _ => .ok { ok := true, json := .ok data },
    updateSearchCount := fun _ _ => .error message }

/-- A transport that answers every request with a non-success status. -/
def Env.transportFails : Env :=
  { fetch := fun _ => .ok { ok := false, json := .error "Unexpected end of JSON input" },
    updateSearchCount := fun _ _ => .ok () }

/-- The term of a query can be escaped: `encodeURIComponent` does not throw on
it. An absent term needs no escape. -/
def Encodable (query : Option JSString) : Prop :=
  ∀ q, query = some q → ∃ escaped, encodeURIComponent q = .ok escaped

/-- A string without unpaired surrogates: every leading surrogate is followed
by a trailing one, and no trailing surrogate stands elsewhere. -/
def wellFormed : JSString → Bool
  | [] => true
  | u :: rest =>
    if isLeadSurrogate u.val then
      match rest with
      | v :: rest2 => isTrailSurrogate v.val && wellFormed rest2
      | [] => false
    else if isTrailSurrogate u.val then false
    else wellFormed rest

/-- The cursors `1, 2, ..., m`. -/
def cursorsUpTo (m : Nat) : List Nat :=
  (List.range m).map fun i => i + 1

/-- A sample catalog record. -/
def sampleMovie : Movie := { id := 268, title := "Batman" }

/-- A second sample catalog record. -/
def otherMovie : Movie := { id := 272, title := "Batman Begins" }

/-- A sample body with two results and the given `total_pages`. -/
def sampleData (total : Nat) : Data :=
  { results := some [sampleMovie, otherMovie], total_pages := some total }

/-- The state of a session in which every page so far reported `total_pages =
n`: `m` pages have been fetched with the cursors `1, ..., m`. -/
structure SteadyAt (queryKey : QueryKey) (n m : Nat) (acc : List Effect × Session) : Prop where
  key : acc.2.queryKey = queryKey
  idle : acc.2.isFetchingNext = false
  count : acc.2.pages.length = m
  last : ∃ lastPage, acc.2.pages.getLast? = some lastPage ∧ lastPage.nextPage = m + 1 ∧
    lastPage.totalPages = some n
  urls : (requestedUrls acc.1).map Except.ok = (cursorsUpTo m).map (endpoint queryKey.2)
  ready : acc.2.status = .Ready

/-- The state of a session all of whose fetches succeeded: its term can be
escaped, it is idle and Ready, has at least one page, and every page after the first was fetched while
the page before it still announced more pages than were there. -/
structure Advancing (acc : List Effect × Session) : Prop where
  encodable : Encodable acc.2.queryKey.2
  idle : acc.2.isFetchingNext = false
  nonempty : acc.2.pages ≠ []
  bound : ∀ prev, acc.2.pages.dropLast.getLast? = some prev →
    ∃ t, prev.totalPages = some t ∧ acc.2.pages.length ≤ t
  ready : acc.2.status = .Ready

/-! ## Lemmas on the escape -/

theorem uriUnreserved_lt (u : Nat) (h : uriUnreserved u = true) : u < 0xD800 := by
  simp only [uriUnreserved, Bool.or_eq_true, Bool.and_eq_true, decide_eq_true_eq,
    List.contains_iff_exists_mem_beq, List.mem_cons, List.mem_singleton, beq_iff_eq] at h
  rcases h with ((h | h) | h) | h
  · omega
  · omega
  · omega
  · obtain ⟨x, hx, rfl⟩ := h
    simp at hx
    omega

theorem prepend_ok_iff (cs : List Char) (r : Except String (List Char)) :
    (∃ out, prepend cs r = .ok out) ↔ ∃ out, r = .ok out := by
  cases r <;> simp [prepend]

theorem encodeUnits_cons (u : CodeUnit) (rest : JSString) :
    encodeUnits (u :: rest) =
      if uriUnreserved u.val then prepend [Char.ofNat u.val] (encodeUnits rest)
      else if isLeadSurrogate u.val then
        match rest with
        | v :: rest2 =>
          if isTrailSurrogate v.val then
            prepend (percentEncode ((u.val - 0xD800) * 0x400 + (v.val - 0xDC00) + 0x10000))
              (encodeUnits rest2)
          else .error "URI malformed"
        | [] => .error "URI malformed"
      else if isTrailSurrogate u.val then .error "URI malformed"
      else prepend (percentEncode u.val) (encodeUnits rest) := by
  cases rest <;> rfl

theorem wellFormed_cons (u : CodeUnit) (rest : JSString) :
    wellFormed (u :: rest) =
      if isLeadSurrogate u.val then
        match rest with
        | v :: rest2 => isTrailSurrogate v.val && wellFormed rest2
        | [] => false
      else if isTrailSurrogate u.val then false
      else wellFormed rest := by
  cases rest <;> rfl

theorem encodeUnits_ok_iff_aux (n : Nat) :
    ∀ s : JSString, s.length ≤ n → ((∃ cs, encodeUnits s = .ok cs) ↔ wellFormed s = true) := by
  induction n with
  | zero =>
    intro s hs
    cases s with
    | nil => simp [encodeUnits, wellFormed]
    | cons u rest => simp at hs
  | succ n ih =>
    intro s hs
    cases s with
    | nil => simp [encodeUnits, wellFormed]
    | cons u rest =>
      have hrest : rest.length ≤ n := by simpa using hs
      rw [encodeUnits_cons, wellFormed_cons]
      cases hu : uriUnreserved u.val with
      | true =>
        have hlt := uriUnreserved_lt _ hu
        have hl : isLeadSurrogate u.val = false := by
          simp only [isLeadSurrogate, Bool.and_eq_false_iff, decide_eq_false_iff_not]; omega
        have ht : isTrailSurrogate u.val = false := by
          simp only [isTrailSurrogate, Bool.and_eq_false_iff, decide_eq_false_iff_not]; omega
        simp only [if_true, hl, ht, Bool.false_eq_true, if_false]
        rw [prepend_ok_iff]
        exact ih rest hrest
      | false =>
        cases hl : isLeadSurrogate u.val with
        | true =>
          cases rest with
          | nil => simp
          | cons v rest2 =>
            have hrest2 : rest2.length ≤ n := by
              simp only [List.length_cons] at hrest; omega
            cases hv : isTrailSurrogate v.val with
            | true =>
              simp only [hv, if_true, Bool.false_eq_true, if_false, Bool.true_and]
              rw [prepend_ok_iff]
              exact ih rest2 hrest2
            | false => simp [hv]
        | false =>
          cases ht : isTrailSurrogate u.val with
          | true => simp
          | false =>
            simp only [Bool.false_eq_true, if_false]
            rw [prepend_ok_iff]
            exact ih rest hrest

theorem encodeURIComponent_ok_iff (s : JSString) :
    (∃ escaped, encodeURIComponent s = .ok escaped) ↔ wellFormed s = true := by
  rw [← encodeUnits_ok_iff_aux s.length s (Nat.le_refl _)]
  unfold encodeURIComponent
  cases encodeUnits s <;> simp

theorem encodeURIComponent_error (s : JSString) (e : String)
    (h : encodeURIComponent s = .error e) : e = "URI malformed" := by
  have key : ∀ n, ∀ t : JSString, t.length ≤ n → ∀ e, encodeUnits t = .error e →
      e = "URI malformed" := by
    intro n
    induction n with
    | zero =>
      intro t ht e he
      cases t with
      | nil => simp [encodeUnits] at he
      | cons u rest => simp at ht
    | succ n ih =>
      intro t ht e he
      cases t with
      | nil => simp [encodeUnits] at he
      | cons u rest =>
        have hrest : rest.length ≤ n := by simpa using ht
        have hpre : ∀ cs (r : Except String (List Char)), r = encodeUnits rest →
            prepend cs r = .error e → e = "URI malformed" := by
          intro cs r hr hp
          cases r with
          | ok out => simp [prepend] at hp
          | error e2 =>
            simp only [prepend, Except.error.injEq] at hp
            subst hp
            exact ih rest hrest _ hr.symm
        rw [encodeUnits_cons] at he
        split at he
        · exact hpre _ _ rfl he
        · split at he
          · cases rest with
            | nil => simp at he; exact he.symm
            | cons v rest2 =>
              have hrest2 : rest2.length ≤ n := by
                simp only [List.length_cons] at hrest; omega
              simp only at he
              split at he
              · cases hr : encodeUnits rest2 with
                | ok out => rw [hr] at he; simp [prepend] at he
                | error e2 =>
                  rw [hr] at he
                  simp only [prepend, Except.error.injEq] at he
                  subst he
                  exact ih rest2 hrest2 _ hr
              · simp at he; exact he.symm
          · split at he
            · simp at he; exact he.symm
            · exact hpre _ _ rfl he
  unfold encodeURIComponent at h
  cases hs : encodeUnits s with
  | ok cs => rw [hs] at h; simp at h
  | error e2 =>
    rw [hs] at h
    simp only [Except.error.injEq] at h
    subst h
    exact key s.length s (Nat.le_refl _) _ hs

theorem wellFormed_utf16Char_append (c : Char) (rest : JSString) :
    wellFormed (utf16Char c ++ rest) = wellFormed rest := by
  have hv : c.toNat < 0xD800 ∨ (0xDFFF < c.toNat ∧ c.toNat < 0x110000) := c.valid
  unfold utf16Char
  by_cases hlt : c.toNat < 0x10000
  · have hval : (codeUnit c.toNat).val = c.toNat := by
      simp only [codeUnit]; omega
    have hl : isLeadSurrogate (codeUnit c.toNat).val = false := by
      rw [hval]
      simp only [isLeadSurrogate, Bool.and_eq_false_iff, decide_eq_false_iff_not]; omega
    have ht : isTrailSurrogate (codeUnit c.toNat).val = false := by
      rw [hval]
      simp only [isTrailSurrogate, Bool.and_eq_false_iff, decide_eq_false_iff_not]; omega
    simp only [hlt, if_true, List.singleton_append, wellFormed_cons, hl, ht,
      Bool.false_eq_true, if_false]
  · have hlead : (codeUnit (0xD800 + (c.toNat - 0x10000) / 0x400)).val =
        0xD800 + (c.toNat - 0x10000) / 0x400 := by
      simp only [codeUnit]; omega
    have htrail : (codeUnit (0xDC00 + (c.toNat - 0x10000) % 0x400)).val =
        0xDC00 + (c.toNat - 0x10000) % 0x400 := by
      simp only [codeUnit]; omega
    have hl : isLeadSurrogate (codeUnit (0xD800 + (c.toNat - 0x10000) / 0x400)).val = true := by
      rw [hlead]
      simp only [isLeadSurrogate, Bool.and_eq_true, decide_eq_true_eq]; omega
    have ht : isTrailSurrogate (codeUnit (0xDC00 + (c.toNat - 0x10000) % 0x400)).val = true := by
      rw [htrail]
      simp only [isTrailSurrogate, Bool.and_eq_true, decide_eq_true_eq]; omega
    simp only [hlt, if_false, List.cons_append, List.nil_append, wellFormed_cons, hl, ht,
      if_true, Bool.true_and]

theorem wellFormed_utf16 (s : String) : wellFormed (utf16 s) = true := by
  unfold utf16
  induction s.toList with
  | nil => rfl
  | cons c cs ih =>
    rw [List.flatMap_cons, wellFormed_utf16Char_append]
    exact ih

theorem encodable_of_wellFormed (q : JSString) (h : wellFormed q = true) :
    Encodable (some q) := by
  intro q2 hq
  cases hq
  exact (encodeURIComponent_ok_iff q).2 h

theorem encodable_utf16 (s : String) : Encodable (some (utf16 s)) :=
  encodable_of_wellFormed _ (wellFormed_utf16 s)

theorem encodable_none : Encodable none := by
  intro q hq
  cases hq

theorem endpoint_of_encodable (query : Option JSString) (h : Encodable query) (n : Nat) :
    ∃ url, endpoint query n = .ok url := by
  cases query with
  | none => exact ⟨_, rfl⟩
  | some q =>
    obtain ⟨escaped, he⟩ := h q rfl
    unfold endpoint
    by_cases ht : truthy (some q) = true
    · simp only [ht, if_true, he]
      exact ⟨_, rfl⟩
    · simp only [ht]
      exact ⟨_, rfl⟩

/-! ## Lemmas on the page fetcher -/

theorem fetchMoviePage_ok_aux (env : Env) (pageParam : Option Nat) (queryKey : QueryKey)
    (url : String) (response : Response) (data : Data)
    (hurl : endpoint queryKey.2 (pageParam.getD 1) = .ok url)
    (hfetch : env.fetch url = .ok response)
    (hok : response.ok = true) (hjson : response.json = .ok data)
    (hanalytics : ∀ q m, queryKey.2 = some q → firstResult data = some m →
      env.updateSearchCount q m = .ok ()) :
    (fetchMoviePage env pageParam queryKey).2 =
      .ok { movies := data.results, nextPage := pageParam.getD 1 + 1,
            totalPages := data.total_pages } := by
  unfold fetchMoviePage
  simp only [hurl, hfetch, hok, hjson]
  cases hq : queryKey.2 with
  | none => simp
  | some q =>
    cases hm : firstResult data with
    | none => simp
    | some m =>
      have h := hanalytics q m hq hm
      by_cases ht : truthy (some q) = true <;> simp [ht, h]

theorem fetchMoviePage_urls_aux (env : Env) (pageParam : Option Nat) (queryKey : QueryKey) :
    requestedUrls (fetchMoviePage env pageParam queryKey).1 =
      match endpoint queryKey.2 (pageParam.getD 1) with
      | .ok url => [url]
      | .error _ => [] := by
  cases hurl : endpoint queryKey.2 (pageParam.getD 1) with
  | error e =>
    unfold fetchMoviePage
    simp [hurl, requestedUrls]
  | ok url =>
    unfold fetchMoviePage
    simp only [hurl]
    split
    · simp [requestedUrls]
    · split
      · simp [requestedUrls]
      · split
        · simp [requestedUrls]
        · split
          · split
            · split <;> simp [requestedUrls]
            · simp [requestedUrls]
          · simp [requestedUrls]

theorem fetchMoviePage_urls_ok_aux (env : Env) (pageParam : Option Nat) (queryKey : QueryKey)
    (h : Encodable queryKey.2) :
    (requestedUrls (fetchMoviePage env pageParam queryKey).1).map Except.ok =
      [endpoint queryKey.2 (pageParam.getD 1)] := by
  obtain ⟨url, hurl⟩ := endpoint_of_encodable queryKey.2 h (pageParam.getD 1)
  rw [fetchMoviePage_urls_aux, hurl]
  rfl

theorem fetchFirst_of_ok (env : Env) (s : Session) (page : PageRecord)
    (h : (fetchMoviePage env none s.queryKey).2 = .ok page) :
    (Session.fetchFirst env s).2 =
      { s with pages := [page], status := .Ready, errorMessage := none } := by
  unfold Session.fetchFirst
  generalize fetchMoviePage env none s.queryKey = r at h
  obtain ⟨t, res⟩ := r
  simp only at h
  subst h
  rfl

theorem fetchFirst_of_error (env : Env) (s : Session) (e : String)
    (h : (fetchMoviePage env none s.queryKey).2 = .error e) :
    (Session.fetchFirst env s).2 = { s with status := .Failed, errorMessage := some e } := by
  unfold Session.fetchFirst
  generalize fetchMoviePage env none s.queryKey = r at h
  obtain ⟨t, res⟩ := r
  simp only at h
  subst h
  rfl

theorem analyticsCalls_aux (env : Env) (pageParam : Option Nat) (queryKey : QueryKey)
    (url : String) (response : Response) (data : Data)
    (hurl : endpoint queryKey.2 (pageParam.getD 1) = .ok url)
    (hfetch : env.fetch url = .ok response)
    (hok : response.ok = true) (hjson : response.json = .ok data) :
    analyticsCalls (fetchMoviePage env pageParam queryKey).1 =
      match queryKey.2, data.results with
      | some q, some (m :: _) => if q = [] then [] else [(q, m)]
      | _, _ => [] := by
  unfold fetchMoviePage
  simp only [hurl, hfetch, hok, hjson]
  cases hq : queryKey.2 with
  | none => simp [analyticsCalls]
  | some q =>
    cases hr : data.results with
    | none => simp [firstResult, hr, analyticsCalls]
    | some ms =>
      cases ms with
      | nil => simp [firstResult, hr, analyticsCalls]
      | cons m rest =>
        by_cases hqe : q = []
        · simp [firstResult, hr, truthy, hqe, analyticsCalls]
        · have ht : truthy (some q) = true := by
            cases q with
            | nil => exact absurd rfl hqe
            | cons a b => rfl
          simp only [firstResult, hr, ht, hqe, if_true, if_false]
          cases env.updateSearchCount q m <;> simp [analyticsCalls]

/-! ## Lemmas on the session -/

theorem requestedUrls_append (a b : List Effect) :
    requestedUrls (a ++ b) = requestedUrls a ++ requestedUrls b := by
  induction a with
  | nil => rfl
  | cons e t ih => cases e <;> simp [requestedUrls, ih]

theorem cursorsUpTo_succ (m : Nat) : cursorsUpTo (m + 1) = cursorsUpTo m ++ [m + 1] := by
  simp [cursorsUpTo, List.range_succ]

theorem fetchNext_noop (env : Env) (s : Session) (h : hasNextPage s.pages = false) :
    Session.fetchNext env s = ([], s) := by
  unfold Session.fetchNext
  unfold hasNextPage at h
  cases hl : s.pages.getLast? with
  | none => rfl
  | some lastPage =>
    rw [hl] at h
    cases hc : getNextPageParam lastPage s.pages with
    | none => simp [hc]
    | some c => simp [hc] at h

theorem fetchNext_of_ok (env : Env) (s : Session) (lastPage page : PageRecord) (c : Nat)
    (hl : s.pages.getLast? = some lastPage) (hc : getNextPageParam lastPage s.pages = some c)
    (hf : s.isFetchingNext = false)
    (h : (fetchMoviePage env (some c) s.queryKey).2 = .ok page) :
    Session.fetchNext env s =
      ((fetchMoviePage env (some c) s.queryKey).1,
        { s with pages := s.pages ++ [page], status := .Ready, errorMessage := none }) := by
  unfold Session.fetchNext
  simp only [hl, hc, hf]
  generalize fetchMoviePage env (some c) s.queryKey = r at h
  obtain ⟨t, res⟩ := r
  simp only at h
  subst h
  rfl

theorem fetchNext_of_error (env : Env) (s : Session) (lastPage : PageRecord) (c : Nat)
    (e : String)
    (hl : s.pages.getLast? = some lastPage) (hc : getNextPageParam lastPage s.pages = some c)
    (hf : s.isFetchingNext = false)
    (h : (fetchMoviePage env (some c) s.queryKey).2 = .error e) :
    Session.fetchNext env s =
      ((fetchMoviePage env (some c) s.queryKey).1,
        { s with status := .Failed, errorMessage := some e }) := by
  unfold Session.fetchNext
  simp only [hl, hc, hf]
  generalize fetchMoviePage env (some c) s.queryKey = r at h
  obtain ⟨t, res⟩ := r
  simp only at h
  subst h
  rfl

theorem fetchMoviePage_of_succeeds (env : Env) (h : env.Succeeds) (pageParam : Option Nat)
    (queryKey : QueryKey) (hq : Encodable queryKey.2) :
    ∃ data : Data, (fetchMoviePage env pageParam queryKey).2 =
      .ok { movies := data.results, nextPage := pageParam.getD 1 + 1,
            totalPages := data.total_pages } := by
  obtain ⟨url, hurl⟩ := endpoint_of_encodable queryKey.2 hq (pageParam.getD 1)
  obtain ⟨response, data, hfetch, hok, hjson⟩ := h.1 url
  exact ⟨data, fetchMoviePage_ok_aux env pageParam queryKey url response data hurl hfetch hok
    hjson (fun q m _ _ => h.2 q m)⟩

theorem fetchMoviePage_of_succeedsWithTotal (env : Env) (n : Nat) (h : env.SucceedsWithTotal n)
    (pageParam : Option Nat) (queryKey : QueryKey) (hq : Encodable queryKey.2) :
    ∃ movies, (fetchMoviePage env pageParam queryKey).2 =
      .ok { movies := movies, nextPage := pageParam.getD 1 + 1, totalPages := some n } := by
  obtain ⟨url, hurl⟩ := endpoint_of_encodable queryKey.2 hq (pageParam.getD 1)
  obtain ⟨response, data, hfetch, hok, hjson, ht⟩ := h.1 url
  refine ⟨data.results, ?_⟩
  rw [← ht]
  exact fetchMoviePage_ok_aux env pageParam queryKey url response data hurl hfetch hok hjson
    (fun q m _ _ => h.2 q m)

theorem steadyAt_fetchFirst (queryKey : QueryKey) (n : Nat) (env : Env)
    (hq : Encodable queryKey.2) (h : env.SucceedsWithTotal n) :
    SteadyAt queryKey n 1 (Session.fetchFirst env (Session.start queryKey)) := by
  obtain ⟨movies, hm⟩ := fetchMoviePage_of_succeedsWithTotal env n h none queryKey hq
  have h2 := fetchFirst_of_ok env (Session.start queryKey) _ hm
  have h1 : (Session.fetchFirst env (Session.start queryKey)).1 =
      (fetchMoviePage env none queryKey).1 := by
    unfold Session.fetchFirst
    simp only [Session.start]
    split <;> simp_all
  refine ⟨?_, ?_, ?_, ?_, ?_, ?_⟩
  · rw [h2]; rfl
  · rw [h2]; rfl
  · rw [h2]; rfl
  · rw [h2]; exact ⟨_, rfl, rfl, rfl⟩
  · rw [h1, fetchMoviePage_urls_ok_aux env none queryKey hq]; rfl
  · rw [h2]

theorem steadyAt_step (queryKey : QueryKey) (n m : Nat) (acc : List Effect × Session)
    (env : Env) (hq : Encodable queryKey.2) (h : env.SucceedsWithTotal n) (hm : m ≤ n)
    (inv : SteadyAt queryKey n m acc) :
    SteadyAt queryKey n (min (m + 1) n) (Session.step acc env) := by
  obtain ⟨lastPage, hl, hnext, htot⟩ := inv.last
  by_cases hlt : m < n
  · have hmin : min (m + 1) n = m + 1 := by omega
    rw [hmin]
    have hc : getNextPageParam lastPage acc.2.pages = some (m + 1) := by
      simp [getNextPageParam, htot, ltTotal, inv.count, hlt, hnext]
    have hq2 : Encodable acc.2.queryKey.2 := by rw [inv.key]; exact hq
    obtain ⟨movies, hp⟩ :=
      fetchMoviePage_of_succeedsWithTotal env n h (some (m + 1)) acc.2.queryKey hq2
    have hstep := fetchNext_of_ok env acc.2 lastPage _ (m + 1) hl hc inv.idle hp
    unfold Session.step
    rw [hstep]
    refine ⟨inv.key, inv.idle, ?_, ?_, ?_, rfl⟩
    · simp [inv.count]
    · refine ⟨_, List.getLast?_concat _, rfl, rfl⟩
    · have hu := fetchMoviePage_urls_ok_aux env (some (m + 1)) acc.2.queryKey hq2
      rw [inv.key] at hu
      simp only [requestedUrls_append, List.map_append, inv.urls, inv.key, hu,
        cursorsUpTo_succ, List.map_cons, List.map_nil, Option.getD_some]
  · have hmin : min (m + 1) n = m := by omega
    rw [hmin]
    have hno : hasNextPage acc.2.pages = false := by
      simp [hasNextPage, hl, getNextPageParam, htot, ltTotal, inv.count, hlt]
    unfold Session.step
    rw [fetchNext_noop env acc.2 hno]
    refine ⟨inv.key, inv.idle, inv.count, inv.last, ?_, inv.ready⟩
    simpa using inv.urls

theorem steadyAt_foldl (queryKey : QueryKey) (n : Nat) (envs : List Env)
    (hq : Encodable queryKey.2) (h : ∀ env ∈ envs, env.SucceedsWithTotal n) :
    ∀ (m : Nat) (acc : List Effect × Session), m ≤ n → SteadyAt queryKey n m acc →
      SteadyAt queryKey n (min (m + envs.length) n) (envs.foldl Session.step acc) := by
  induction envs with
  | nil =>
    intro m acc hm inv
    have : min (m + ([] : List Env).length) n = m := by simp; omega
    rw [this]
    exact inv
  | cons env rest ih =>
    intro m acc hm inv
    have hstep := steadyAt_step queryKey n m acc env hq (h env (List.mem_cons_self _ _)) hm inv
    have hrest := ih (fun e he => h e (List.mem_cons_of_mem _ he)) (min (m + 1) n)
      (Session.step acc env) (by omega) hstep
    have : min (min (m + 1) n + rest.length) n = min (m + (env :: rest).length) n := by
      simp only [List.length_cons]; omega
    rw [this] at hrest
    exact hrest

theorem serving_succeedsWithTotal (results : Option (List Movie)) (n : Nat) :
    (Env.serving { results := results, total_pages := some n }).SucceedsWithTotal n :=
  ⟨fun _ => ⟨_, _, rfl, rfl, rfl, rfl⟩, fun _ _ => rfl⟩

theorem serving_succeeds (data : Data) : (Env.serving data).Succeeds :=
  ⟨fun _ => ⟨_, _, rfl, rfl, rfl⟩, fun _ _ => rfl⟩

theorem hasNextPage_true_iff (pages : List PageRecord) :
    hasNextPage pages = true ↔
      ∃ lastPage t, pages.getLast? = some lastPage ∧ lastPage.totalPages = some t ∧
        pages.length < t := by
  unfold hasNextPage
  cases hl : pages.getLast? with
  | none => simp
  | some lastPage =>
    cases ht : lastPage.totalPages with
    | none => simp [getNextPageParam, ltTotal, ht]
    | some t =>
      by_cases hlt : pages.length < t <;> simp [getNextPageParam, ltTotal, ht, hlt]

theorem hasNextPage_cursor (pages : List PageRecord) (h : hasNextPage pages = true) :
    ∃ lastPage t, pages.getLast? = some lastPage ∧ lastPage.totalPages = some t ∧
      pages.length < t ∧ getNextPageParam lastPage pages = some lastPage.nextPage := by
  obtain ⟨lastPage, t, hl, ht, hlt⟩ := (hasNextPage_true_iff pages).1 h
  exact ⟨lastPage, t, hl, ht, hlt, by simp [getNextPageParam, ltTotal, ht, hlt]⟩

theorem advancing_fetchFirst (queryKey : QueryKey) (env : Env)
    (hq : Encodable queryKey.2) (h : env.Succeeds) :
    Advancing (Session.fetchFirst env (Session.start queryKey)) := by
  obtain ⟨data, hm⟩ := fetchMoviePage_of_succeeds env h none queryKey hq
  have h2 := fetchFirst_of_ok env (Session.start queryKey) _ hm
  refine ⟨?_, ?_, ?_, ?_, ?_⟩
  · rw [h2]; exact hq
  · rw [h2]; rfl
  · rw [h2]; simp
  · rw [h2]; intro prev hp; simp at hp
  · rw [h2]

theorem advancing_step (acc : List Effect × Session) (env : Env) (h : env.Succeeds)
    (inv : Advancing acc) : Advancing (Session.step acc env) := by
  by_cases hno : hasNextPage acc.2.pages = false
  · unfold Session.step
    rw [fetchNext_noop env acc.2 hno]
    exact ⟨inv.encodable, inv.idle, inv.nonempty, inv.bound, inv.ready⟩
  · have hyes : hasNextPage acc.2.pages = true := by
      cases hb : hasNextPage acc.2.pages
      · exact absurd hb hno
      · rfl
    obtain ⟨lastPage, t, hl, ht, hlt, hc⟩ := hasNextPage_cursor acc.2.pages hyes
    obtain ⟨data, hp⟩ :=
      fetchMoviePage_of_succeeds env h (some lastPage.nextPage) acc.2.queryKey inv.encodable
    have hstep := fetchNext_of_ok env acc.2 lastPage _ lastPage.nextPage hl hc inv.idle hp
    unfold Session.step
    rw [hstep]
    refine ⟨inv.encodable, inv.idle, ?_, ?_, rfl⟩
    · simp
    · intro prev hprev
      simp only [List.dropLast_concat] at hprev
      rw [hl] at hprev
      cases hprev
      refine ⟨t, ht, ?_⟩
      simp only [List.length_append, List.length_singleton]
      omega

theorem advancing_foldl (envs : List Env) (h : ∀ env ∈ envs, env.Succeeds) :
    ∀ acc : List Effect × Session, Advancing acc → Advancing (envs.foldl Session.step acc) := by
  induction envs with
  | nil => intro acc inv; exact inv
  | cons env rest ih =>
    intro acc inv
    exact ih (fun e he => h e (List.mem_cons_of_mem _ he)) _
      (advancing_step acc env (h env (List.mem_cons_self _ _)) inv)

theorem advancing_run (queryKey : QueryKey) (env0 : Env) (envs : List Env)
    (hq : Encodable queryKey.2) (h0 : env0.Succeeds) (h : ∀ env ∈ envs, env.Succeeds) :
    Advancing (Session.run queryKey env0 envs) :=
  advancing_foldl envs h _ (advancing_fetchFirst queryKey env0 hq h0)

theorem view_of_failed (pendingLabel : String) (s : Session) (message : String)
    (hs : s.status = .Failed) (he : s.errorMessage = some message) :
    s.view pendingLabel =
      .ok { heading := "All Movies", body := .errorText "text-red-500" message } := by
  have h1 : ¬ ("error" = "loading") := by decide
  simp [Session.view, render, Status.label, hs, he, h1]

theorem onIntersect_of_failed (pendingLabel : String) (s : Session) (message : String)
    (hs : s.status = .Failed) (he : s.errorMessage = some message) (entries : List Entry) :
    s.onIntersect pendingLabel entries = .ok [] := by
  unfold Session.onIntersect
  rw [view_of_failed pendingLabel s message hs he]
  rfl

/-- The two URL shapes on concrete terms: reserved characters, non-ASCII
letters and characters above the basic plane are escaped, an empty term selects
the discover URL, and a term with an unpaired surrogate yields no URL. -/
theorem endpoint_examples :
    endpoint (some (utf16 "bat man & robin?")) 3 =
      .ok "https://api.themoviedb.org/3/search/movie?query=bat%20man%20%26%20robin%3F&page=3" ∧
    endpoint (some (utf16 "amélie😀")) 1 =
      .ok "https://api.themoviedb.org/3/search/movie?query=am%C3%A9lie%F0%9F%98%80&page=1" ∧
    endpoint (some []) 2 =
      .ok "https://api.themoviedb.org/3/discover/movie?sort_by=popularity.desc&page=2" ∧
    endpoint none 1 =
      .ok "https://api.themoviedb.org/3/discover/movie?sort_by=popularity.desc&page=1" ∧
    endpoint (some [0x61, 0xDC00]) 1 = .error "URI malformed" := by
  decide

/-! ## The page fetcher: claims C1 to C5 -/

/-- C1: on a success status whose body parses to `data`, with the analytics
call (if made) returning, `fetchMoviePage` returns exactly the record
`movies = data.results`, `nextPage = n + 1`, `totalPages = data.total_pages`,
where `n` is the page parameter; without a page parameter the cursor is 1 and
`nextPage` is 2. The catalog response is the answer to the request for the
endpoint `url` of lines 19-21. -/
theorem fetchMoviePage_returns_page_record (env : Env) (pageParam : Option Nat)
    (queryKey : QueryKey) (url : String) (response : Response) (data : Data)
    (hurl : endpoint queryKey.2 (pageParam.getD 1) = .ok url)
    (hfetch : env.fetch url = .ok response)
    (hok : response.ok = true) (hjson : response.json = .ok data)
    (hanalytics : ∀ q m, queryKey.2 = some q → firstResult data = some m →
      env.updateSearchCount q m = .ok ()) :
    (fetchMoviePage env pageParam queryKey).2 =
      .ok { movies := data.results,
            nextPage := (match pageParam with
              | some n => n + 1
              | none => 2),
            totalPages := data.total_pages } := by
  rw [fetchMoviePage_ok_aux env pageParam queryKey url response data hurl hfetch hok hjson
    hanalytics]
  cases pageParam <;> rfl

/-- C1, at a concrete input: page 4 of a search, and the first page of a
discover request fetched without a page parameter. -/
theorem fetchMoviePage_returns_page_record_witness :
    (fetchMoviePage (Env.serving (sampleData 7)) (some 4) ("movies", some (utf16 "batman"))).2 =
        .ok { movies := some [sampleMovie, otherMovie], nextPage := 5, totalPages := some 7 } ∧
    (fetchMoviePage (Env.serving (sampleData 7)) none ("movies", none)).2 =
        .ok { movies := some [sampleMovie, otherMovie], nextPage := 2, totalPages := some 7 } :=
  ⟨fetchMoviePage_returns_page_record (Env.serving (sampleData 7)) (some 4)
      ("movies", some (utf16 "batman"))
      "https://api.themoviedb.org/3/search/movie?query=batman&page=4"
      { ok := true, json := .ok (sampleData 7) } (sampleData 7)
      (by decide) rfl rfl rfl (fun _ _ _ _ => rfl),
   fetchMoviePage_returns_page_record (Env.serving (sampleData 7)) none
      ("movies", none)
      "https://api.themoviedb.org/3/discover/movie?sort_by=popularity.desc&page=1"
      { ok := true, json := .ok (sampleData 7) } (sampleData 7)
      (by decide) rfl rfl rfl (fun _ _ _ _ => rfl)⟩

/-- C2, as stated, fails: for the search term made of the single unpaired
surrogate `\uD800` and cursor 1, `encodeURIComponent` throws at line 20, so
`fetchMoviePage` fails with "URI malformed" before `fetch` is called and
requests no URL at all, neither the search URL nor any other. -/
theorem unpaired_surrogate_requests_no_url :
    wellFormed [0xD800] = false ∧
    fetchMoviePage (Env.serving (sampleData 3)) (some 1) ("movies", some [0xD800]) =
      ([], .error "URI malformed") ∧
    requestedUrls
      (fetchMoviePage (Env.serving (sampleData 3)) (some 1) ("movies", some [0xD800])).1 = [] := by
  decide

/-- C2, amended: whatever the collaborators do, `fetchMoviePage` requests the
discover URL sorted by descending popularity with `page=n` when the term is
absent or empty, and the search URL with the escaped term and `page=n` when the
term is a non-empty string without unpaired surrogates, and nothing else in
these cases; when the non-empty term holds an unpaired surrogate the escape
throws "URI malformed", the fetch fails with it and no URL is requested. No
other URL shape is ever produced. -/
theorem fetchMoviePage_requests_url_or_throws (env : Env) (key : String)
    (query : Option JSString) (pageParam : Option Nat) :
    requestedUrls (fetchMoviePage env pageParam (key, query)).1 =
      (match query with
       | some q =>
         if q = [] then
           ["https://api.themoviedb.org/3/discover/movie?sort_by=popularity.desc&page=" ++
             toString (pageParam.getD 1)]
         else
           match encodeURIComponent q with
           | .ok escaped =>
             ["https://api.themoviedb.org/3/search/movie?query=" ++ escaped ++
               "&page=" ++ toString (pageParam.getD 1)]
           | .error _ => []
       | none =>
         ["https://api.themoviedb.org/3/discover/movie?sort_by=popularity.desc&page=" ++
           toString (pageParam.getD 1)]) ∧
    (∀ q, query = some q → q ≠ [] → wellFormed q = true →
      ∃ escaped, encodeURIComponent q = .ok escaped ∧
        requestedUrls (fetchMoviePage env pageParam (key, query)).1 =
          ["https://api.themoviedb.org/3/search/movie?query=" ++ escaped ++
            "&page=" ++ toString (pageParam.getD 1)]) ∧
    (∀ q, query = some q → q ≠ [] → wellFormed q = false →
      fetchMoviePage env pageParam (key, query) = ([], .error "URI malformed")) := by
  have hmain : requestedUrls (fetchMoviePage env pageParam (key, query)).1 =
      (match query with
       | some q =>
         if q = [] then
           ["https://api.themoviedb.org/3/discover/movie?sort_by=popularity.desc&page=" ++
             toString (pageParam.getD 1)]
         else
           match encodeURIComponent q with
           | .ok escaped =>
             ["https://api.themoviedb.org/3/search/movie?query=" ++ escaped ++
               "&page=" ++ toString (pageParam.getD 1)]
           | .error _ => []
       | none =>
         ["https://api.themoviedb.org/3/discover/movie?sort_by=popularity.desc&page=" ++
           toString (pageParam.getD 1)]) := by
    rw [fetchMoviePage_urls_aux]
    cases query with
    | none => simp [endpoint, API_BASE_URL, String.append_assoc]
    | some q =>
      cases q with
      | nil => simp [endpoint, truthy, API_BASE_URL, String.append_assoc]
      | cons u rest =>
        cases he : encodeURIComponent (u :: rest) with
        | ok escaped => simp [endpoint, truthy, he, API_BASE_URL, String.append_assoc]
        | error e => simp [endpoint, truthy, he]
  refine ⟨hmain, ?_, ?_⟩
  · intro q hq hne hwf
    obtain ⟨escaped, he⟩ := (encodeURIComponent_ok_iff q).2 hwf
    refine ⟨escaped, he, ?_⟩
    rw [hmain, hq]
    simp [hne, he]
  · intro q hq hne hwf
    cases he : encodeURIComponent q with
    | ok escaped =>
      have := (encodeURIComponent_ok_iff q).1 ⟨escaped, he⟩
      rw [hwf] at this
      cases this
    | error e =>
      have hmsg := encodeURIComponent_error q e he
      subst hmsg
      subst hq
      cases q with
      | nil => exact absurd rfl hne
      | cons u rest =>
        unfold fetchMoviePage
        simp [endpoint, truthy, he]

/-- C3: on a non-success status `fetchMoviePage` fails with the message
"Failed to fetch movies", returns no page record and makes no analytics call.
The transport response is the answer to the request for the endpoint `url` of
lines 19-21. -/
theorem fetchMoviePage_non_success_status (env : Env) (pageParam : Option Nat)
    (queryKey : QueryKey) (url : String) (response : Response)
    (hurl : endpoint queryKey.2 (pageParam.getD 1) = .ok url)
    (hfetch : env.fetch url = .ok response)
    (hok : response.ok = false) :
    (fetchMoviePage env pageParam queryKey).2 = .error "Failed to fetch movies" ∧
    (∀ page, (fetchMoviePage env pageParam queryKey).2 ≠ .ok page) ∧
    analyticsCalls (fetchMoviePage env pageParam queryKey).1 = [] := by
  have h : fetchMoviePage env pageParam queryKey =
      ([.fetch url, .consoleLog], .error "Failed to fetch movies") := by
    unfold fetchMoviePage
    simp [hurl, hfetch, hok]
  rw [h]
  refine ⟨rfl, ?_, ?_⟩
  · intro page hp
    cases hp
  · simp [analyticsCalls]

/-- C3, at a concrete input: a search for "batman" answered with a non-success
status. -/
theorem fetchMoviePage_non_success_status_witness :
    (fetchMoviePage Env.transportFails (some 2) ("movies", some (utf16 "batman"))).2 =
        .error "Failed to fetch movies" ∧
    (∀ page, (fetchMoviePage Env.transportFails (some 2) ("movies", some (utf16 "batman"))).2 ≠
        .ok page) ∧
    analyticsCalls (fetchMoviePage Env.transportFails (some 2) ("movies", some (utf16 "batman"))).1 = [] :=
  fetchMoviePage_non_success_status Env.transportFails (some 2) ("movies", some (utf16 "batman"))
    "https://api.themoviedb.org/3/search/movie?query=batman&page=2"
    { ok := false, json := .error "Unexpected end of JSON input" } (by decide) rfl rfl

/-- C4, as stated, fails: a search for "batman" whose catalog response is
successful and has results, with an analytics call that throws, does not return
the page record; the fetch fails with the analytics error and the session that
starts with it ends up Failed, not Ready. -/
theorem analytics_failure_fails_the_fetch :
    (fetchMoviePage (Env.analyticsThrows (sampleData 3) "analytics unavailable") none
        ("movies", some (utf16 "batman"))).2 = .error "analytics unavailable" ∧
    (fetchMoviePage (Env.analyticsThrows (sampleData 3) "analytics unavailable") none
        ("movies", some (utf16 "batman"))).2 ≠
      .ok { movies := some [sampleMovie, otherMovie], nextPage := 2, totalPages := some 3 } ∧
    (Session.run ("movies", some (utf16 "batman"))
        (Env.analyticsThrows (sampleData 3) "analytics unavailable") []).2.status = .Failed ∧
    (Session.run ("movies", some (utf16 "batman"))
        (Env.analyticsThrows (sampleData 3) "analytics unavailable") []).2.status ≠ .Ready := by
  decide

/-- C4, amended: for a non-empty search term and a successful catalog response
with at least one result, `fetchMoviePage` returns the page record when the
analytics call returns (and an initial fetch leaves the session Ready); when
the analytics call throws, its error is the outcome of the fetch (and an
initial fetch leaves the session Failed). -/
theorem fetchMoviePage_follows_analytics_outcome (env : Env) (pageParam : Option Nat)
    (key : String) (q : JSString) (url : String) (response : Response) (data : Data)
    (m : Movie) (ms : List Movie)
    (hq : q ≠ [])
    (hurl : endpoint (some q) (pageParam.getD 1) = .ok url)
    (hfetch : env.fetch url = .ok response)
    (hok : response.ok = true) (hjson : response.json = .ok data)
    (hres : data.results = some (m :: ms)) :
    (env.updateSearchCount q m = .ok () →
      (fetchMoviePage env pageParam (key, some q)).2 =
        .ok { movies := some (m :: ms), nextPage := pageParam.getD 1 + 1,
              totalPages := data.total_pages } ∧
      (pageParam = none →
        (Session.fetchFirst env (Session.start (key, some q))).2.status = .Ready)) ∧
    (∀ e, env.updateSearchCount q m = .error e →
      (fetchMoviePage env pageParam (key, some q)).2 = .error e ∧
      (pageParam = none →
        (Session.fetchFirst env (Session.start (key, some q))).2.status = .Failed)) := by
  have hfirst : firstResult data = some m := by simp [firstResult, hres]
  have ht : truthy (some q) = true := by
    cases q with
    | nil => exact absurd rfl hq
    | cons a b => rfl
  constructor
  · intro ha
    have h : (fetchMoviePage env pageParam (key, some q)).2 =
        .ok { movies := some (m :: ms), nextPage := pageParam.getD 1 + 1,
              totalPages := data.total_pages } := by
      unfold fetchMoviePage
      simp [hurl, hfetch, hok, hjson, hfirst, ht, ha, hres]
    refine ⟨h, ?_⟩
    intro hp
    subst hp
    rw [fetchFirst_of_ok env (Session.start (key, some q)) _ h]
  · intro e ha
    have h : (fetchMoviePage env pageParam (key, some q)).2 = .error e := by
      unfold fetchMoviePage
      simp [hurl, hfetch, hok, hjson, hfirst, ht, ha]
    refine ⟨h, ?_⟩
    intro hp
    subst hp
    rw [fetchFirst_of_error env (Session.start (key, some q)) e h]

/-- C4 amended, at a concrete input: the same search for "batman", once with an
analytics call that returns and once with one that throws. -/
theorem fetchMoviePage_follows_analytics_outcome_witness :
    ((fetchMoviePage (Env.serving (sampleData 3)) none ("movies", some (utf16 "batman"))).2 =
        .ok { movies := some [sampleMovie, otherMovie], nextPage := 2, totalPages := some 3 } ∧
      (Session.fetchFirst (Env.serving (sampleData 3))
        (Session.start ("movies", some (utf16 "batman")))).2.status = .Ready) ∧
    ((fetchMoviePage (Env.analyticsThrows (sampleData 3) "analytics unavailable") none
        ("movies", some (utf16 "batman"))).2 = .error "analytics unavailable" ∧
      (Session.fetchFirst (Env.analyticsThrows (sampleData 3) "analytics unavailable")
        (Session.start ("movies", some (utf16 "batman")))).2.status = .Failed) :=
  ⟨(fun h => ⟨h.1, h.2 rfl⟩)
    ((fetchMoviePage_follows_analytics_outcome (Env.serving (sampleData 3)) none
      "movies" (utf16 "batman") "https://api.themoviedb.org/3/search/movie?query=batman&page=1"
      { ok := true, json := .ok (sampleData 3) } (sampleData 3)
      sampleMovie [otherMovie] (by decide) (by decide) rfl rfl rfl rfl).1 rfl),
   (fun h => ⟨h.1, h.2 rfl⟩)
    ((fetchMoviePage_follows_analytics_outcome
      (Env.analyticsThrows (sampleData 3) "analytics unavailable") none
      "movies" (utf16 "batman") "https://api.themoviedb.org/3/search/movie?query=batman&page=1"
      { ok := true, json := .ok (sampleData 3) } (sampleData 3)
      sampleMovie [otherMovie] (by decide) (by decide) rfl rfl rfl rfl).2
      "analytics unavailable" rfl)⟩

/-- C5: on a successful fetch the analytics call is made if and only if the
search term is a non-empty string and the result list is non-empty, and then
exactly once, with the term and the first result; none is made for a discover
request, for an empty result list, or for a body without `results`. The
catalog response is the answer to the request for the endpoint `url` of lines
19-21. -/
theorem fetchMoviePage_analytics_calls (env : Env) (pageParam : Option Nat)
    (queryKey : QueryKey) (url : String) (response : Response) (data : Data)
    (hurl : endpoint queryKey.2 (pageParam.getD 1) = .ok url)
    (hfetch : env.fetch url = .ok response)
    (hok : response.ok = true) (hjson : response.json = .ok data) :
    (analyticsCalls (fetchMoviePage env pageParam queryKey).1 ≠ [] ↔
      ∃ q m ms, queryKey.2 = some q ∧ q ≠ [] ∧ data.results = some (m :: ms)) ∧
    (∀ q m ms, queryKey.2 = some q → q ≠ [] → data.results = some (m :: ms) →
      analyticsCalls (fetchMoviePage env pageParam queryKey).1 = [(q, m)]) ∧
    (queryKey.2 = none → analyticsCalls (fetchMoviePage env pageParam queryKey).1 = []) ∧
    (queryKey.2 = some [] → analyticsCalls (fetchMoviePage env pageParam queryKey).1 = []) ∧
    (data.results = some [] → analyticsCalls (fetchMoviePage env pageParam queryKey).1 = []) ∧
    (data.results = none → analyticsCalls (fetchMoviePage env pageParam queryKey).1 = []) := by
  rw [analyticsCalls_aux env pageParam queryKey url response data hurl hfetch hok hjson]
  refine ⟨?_, ?_, ?_, ?_, ?_, ?_⟩
  · constructor
    · intro h
      cases hq : queryKey.2 with
      | none => simp [hq] at h
      | some q =>
        cases hr : data.results with
        | none => simp [hq, hr] at h
        | some l =>
          cases l with
          | nil => simp [hq, hr] at h
          | cons m ms =>
            by_cases hqe : q = []
            · simp [hq, hr, hqe] at h
            · exact ⟨q, m, ms, rfl, hqe, rfl⟩
    · rintro ⟨q, m, ms, hq, hqe, hr⟩
      simp [hq, hr, hqe]
  · intro q m ms hq hqe hr
    simp [hq, hr, hqe]
  · intro hq
    simp [hq]
  · intro hq
    cases hr : data.results with
    | none => simp [hq]
    | some l => cases l <;> simp [hq]
  · intro hr
    cases hq : queryKey.2 <;> simp [hr]
  · intro hr
    cases hq : queryKey.2 <;> simp [hr]

/-- C5, at a concrete input: a search for "batman" with two results makes one
analytics call, with the term and the first result, even when that call
throws. -/
theorem fetchMoviePage_analytics_calls_witness :
    analyticsCalls (fetchMoviePage (Env.analyticsThrows (sampleData 3) "analytics unavailable")
      (some 2) ("movies", some (utf16 "batman"))).1 = [(utf16 "batman", sampleMovie)] :=
  (fetchMoviePage_analytics_calls (Env.analyticsThrows (sampleData 3) "analytics unavailable")
    (some 2) ("movies", some (utf16 "batman"))
    "https://api.themoviedb.org/3/search/movie?query=batman&page=2"
    { ok := true, json := .ok (sampleData 3) } (sampleData 3)
    (by decide) rfl rfl rfl).2.1 (utf16 "batman") sampleMovie [otherMovie] rfl (by decide) rfl

/-! ## The next-page rule and the handler: claims C6 and C8 -/

/-- C6: the next-page rule yields the last page's `nextPage` when
`pages.length < lastPage.totalPages` and yields no cursor otherwise, so for a
non-empty page sequence `hasNextPage` holds if and only if the number of pages
is below the last page's `totalPages`. -/
theorem getNextPageParam_iff_below_total (lastPage : PageRecord) (pages init : List PageRecord) :
    (getNextPageParam lastPage pages = some lastPage.nextPage ↔
      ∃ t, lastPage.totalPages = some t ∧ pages.length < t) ∧
    (getNextPageParam lastPage pages = none ↔
      ¬ ∃ t, lastPage.totalPages = some t ∧ pages.length < t) ∧
    (∀ c, getNextPageParam lastPage pages = some c → c = lastPage.nextPage) ∧
    (hasNextPage (init ++ [lastPage]) = true ↔
      ∃ t, lastPage.totalPages = some t ∧ (init ++ [lastPage]).length < t) := by
  have key : ∀ ps : List PageRecord, ltTotal ps.length lastPage.totalPages = true ↔
      ∃ t, lastPage.totalPages = some t ∧ ps.length < t := by
    intro ps
    cases h : lastPage.totalPages with
    | none => simp [ltTotal]
    | some t => simp [ltTotal]
  refine ⟨?_, ?_, ?_, ?_⟩
  · rw [← key pages]
    unfold getNextPageParam
    by_cases h : ltTotal pages.length lastPage.totalPages = true <;> simp [h]
  · rw [← key pages]
    unfold getNextPageParam
    by_cases h : ltTotal pages.length lastPage.totalPages = true <;> simp [h]
  · intro c
    unfold getNextPageParam
    by_cases h : ltTotal pages.length lastPage.totalPages = true <;> simp [h]
    intro hc
    exact hc.symm
  · rw [← key (init ++ [lastPage])]
    unfold hasNextPage
    rw [List.getLast?_concat]
    unfold getNextPageParam
    by_cases h : ltTotal (init ++ [lastPage]).length lastPage.totalPages = true <;> simp [h]

/-- C8: on an intersection event whose first entry is `target`, the handler
calls `fetchNextPage` exactly once when `target` is intersecting, a next page
exists and no next-page fetch is in flight, and does nothing in every other
case. -/
theorem handleObserver_calls_fetchNextPage_iff (target : Entry) (rest : List Entry)
    (hasNext isFetching : Bool) :
    (handleObserver hasNext isFetching (target :: rest) = .ok [Effect.fetchNextPage] ↔
      (target.isIntersecting = true ∧ hasNext = true ∧ isFetching = false)) ∧
    (handleObserver hasNext isFetching (target :: rest) = .ok [] ↔
      ¬ (target.isIntersecting = true ∧ hasNext = true ∧ isFetching = false)) ∧
    (isFetching = true → handleObserver hasNext isFetching (target :: rest) = .ok []) ∧
    (hasNext = false → handleObserver hasNext isFetching (target :: rest) = .ok []) ∧
    (target.isIntersecting = false →
      handleObserver hasNext isFetching (target :: rest) = .ok []) := by
  cases hi : target.isIntersecting <;> cases hasNext <;> cases isFetching <;>
    simp [handleObserver, hi]

/-! ## The session: claims C7, C9 and C10 -/

/-- C7: when `n >= 1` and every fetch succeeds (the term can be escaped, and
the catalog answers every request with a success status and `total_pages = n`), the
initial fetch followed by any number `k` of `fetchNext()` calls requests exactly
the pages with cursors `1, 2, ..., min (k + 1) n`, in that order; once `n` pages
are there (`k + 1 >= n`) `hasNextPage` is false and a further `fetchNext()`
issues no request and changes nothing. -/
theorem session_cursors_one_to_total (queryKey : QueryKey) (n : Nat) (env0 : Env)
    (envs : List Env) (hn : 1 ≤ n) (hq : Encodable queryKey.2)
    (h0 : env0.SucceedsWithTotal n) (h : ∀ env ∈ envs, env.SucceedsWithTotal n) :
    (requestedUrls (Session.run queryKey env0 envs).1).map Except.ok =
      (cursorsUpTo (min (envs.length + 1) n)).map (endpoint queryKey.2) ∧
    (Session.run queryKey env0 envs).2.pages.length = min (envs.length + 1) n ∧
    (n ≤ envs.length + 1 →
      hasNextPage (Session.run queryKey env0 envs).2.pages = false ∧
      ∀ env, Session.fetchNext env (Session.run queryKey env0 envs).2 =
        ([], (Session.run queryKey env0 envs).2)) := by
  have inv := steadyAt_foldl queryKey n envs hq h 1 _ hn
    (steadyAt_fetchFirst queryKey n env0 hq h0)
  have hm : min (1 + envs.length) n = min (envs.length + 1) n := by rw [Nat.add_comm]
  rw [hm] at inv
  refine ⟨inv.urls, inv.count, ?_⟩
  intro hk
  obtain ⟨lastPage, hl, _, htot⟩ := inv.last
  have hno : hasNextPage (Session.run queryKey env0 envs).2.pages = false := by
    have hc := inv.count
    have : ¬ (min (envs.length + 1) n < n) := by omega
    change hasNextPage (envs.foldl Session.step _).2.pages = false
    simp [hasNextPage, hl, getNextPageParam, htot, ltTotal, hc, this]
  exact ⟨hno, fun env => fetchNext_noop env _ hno⟩

/-- C7, at concrete inputs: with `total_pages = 3` the initial fetch and four
`fetchNext()` calls request pages 1, 2, 3 and nothing more; with
`total_pages = 1` the initial fetch and two `fetchNext()` calls request page 1
only. -/
theorem session_cursors_one_to_total_witness :
    (requestedUrls (Session.run ("movies", none) (Env.serving (sampleData 3))
        [Env.serving (sampleData 3), Env.serving (sampleData 3), Env.serving (sampleData 3),
          Env.serving (sampleData 3)]).1 =
      ["https://api.themoviedb.org/3/discover/movie?sort_by=popularity.desc&page=1",
       "https://api.themoviedb.org/3/discover/movie?sort_by=popularity.desc&page=2",
       "https://api.themoviedb.org/3/discover/movie?sort_by=popularity.desc&page=3"] ∧
      hasNextPage (Session.run ("movies", none) (Env.serving (sampleData 3))
        [Env.serving (sampleData 3), Env.serving (sampleData 3), Env.serving (sampleData 3),
          Env.serving (sampleData 3)]).2.pages = false) ∧
    (requestedUrls (Session.run ("movies", some (utf16 "batman")) (Env.serving (sampleData 1))
        [Env.serving (sampleData 1), Env.serving (sampleData 1)]).1 =
      ["https://api.themoviedb.org/3/search/movie?query=batman&page=1"] ∧
      hasNextPage (Session.run ("movies", some (utf16 "batman")) (Env.serving (sampleData 1))
        [Env.serving (sampleData 1), Env.serving (sampleData 1)]).2.pages = false) :=
  ⟨(fun h => ⟨List.map_injective_iff.2 (fun _ _ hab => Except.ok.inj hab)
        (h.1.trans (by decide)), (h.2.2 (by decide)).1⟩)
    (session_cursors_one_to_total ("movies", none) 3 (Env.serving (sampleData 3))
      [Env.serving (sampleData 3), Env.serving (sampleData 3), Env.serving (sampleData 3),
        Env.serving (sampleData 3)]
      (by decide) encodable_none (serving_succeedsWithTotal _ 3)
      (fun env he => by
        simp only [List.mem_cons, List.mem_singleton, List.mem_nil_iff, or_false, or_self] at he
        subst he
        exact serving_succeedsWithTotal _ 3)),
   (fun h => ⟨List.map_injective_iff.2 (fun _ _ hab => Except.ok.inj hab)
        (h.1.trans (by decide)), (h.2.2 (by decide)).1⟩)
    (session_cursors_one_to_total ("movies", some (utf16 "batman")) 1
      (Env.serving (sampleData 1))
      [Env.serving (sampleData 1), Env.serving (sampleData 1)]
      (by decide) (encodable_utf16 "batman") (serving_succeedsWithTotal _ 1)
      (fun env he => by
        simp only [List.mem_cons, List.mem_singleton, List.mem_nil_iff, or_false, or_self] at he
        subst he
        exact serving_succeedsWithTotal _ 1))⟩

/-- C9, as stated, fails. A session whose first page reports `total_pages = 2`
and whose second page reports `total_pages = 1` holds two pages, more than the
`totalPages` of the most recent page, and `hasNextPage` is false although the
two numbers differ; a session whose only page reports `total_pages = 0` holds
one page, again more than that page's `totalPages`. -/
theorem page_count_can_exceed_latest_total :
    ((Session.run ("movies", none) (Env.serving (sampleData 2))
        [Env.serving (sampleData 1)]).2.pages.length = 2 ∧
      (Session.run ("movies", none) (Env.serving (sampleData 2))
        [Env.serving (sampleData 1)]).2.pages.getLast?.map (fun p => p.totalPages) =
          some (some 1) ∧
      hasNextPage (Session.run ("movies", none) (Env.serving (sampleData 2))
        [Env.serving (sampleData 1)]).2.pages = false) ∧
    ((Session.run ("movies", none) (Env.serving (sampleData 0)) []).2.pages.length = 1 ∧
      (Session.run ("movies", none) (Env.serving (sampleData 0))
        []).2.pages.getLast?.map (fun p => p.totalPages) = some (some 0) ∧
      hasNextPage (Session.run ("movies", none) (Env.serving (sampleData 0)) []).2.pages =
        false) := by
  decide

/-- C9, amended: in every state reached by an initial fetch and any number of
`fetchNext()` calls that all succeed (the term can be escaped and the catalog
answers every request), whatever `total_pages` the server reports,
`hasNextPage` is false exactly when the number of pages has reached or passed
the `totalPages` of the most recent page (or that page has none), and then a
`fetchNext()` issues no request and changes nothing; the number of pages never
exceeds the `totalPages` of the page before the most recent one; and when every
page reports the same `totalPages = n` with `n >= 1`, the number of pages never
exceeds `n`. -/
theorem session_pages_bounded (queryKey : QueryKey) (env0 : Env) (envs : List Env)
    (hq : Encodable queryKey.2) (h0 : env0.Succeeds) (h : ∀ env ∈ envs, env.Succeeds) :
    (hasNextPage (Session.run queryKey env0 envs).2.pages = false ↔
      ∃ lastPage, (Session.run queryKey env0 envs).2.pages.getLast? = some lastPage ∧
        ∀ t, lastPage.totalPages = some t →
          t ≤ (Session.run queryKey env0 envs).2.pages.length) ∧
    (hasNextPage (Session.run queryKey env0 envs).2.pages = false →
      ∀ env, Session.fetchNext env (Session.run queryKey env0 envs).2 =
        ([], (Session.run queryKey env0 envs).2)) ∧
    (∀ prev, (Session.run queryKey env0 envs).2.pages.dropLast.getLast? = some prev →
      ∃ t, prev.totalPages = some t ∧ (Session.run queryKey env0 envs).2.pages.length ≤ t) ∧
    (∀ n, 1 ≤ n → (∀ p ∈ (Session.run queryKey env0 envs).2.pages, p.totalPages = some n) →
      (Session.run queryKey env0 envs).2.pages.length ≤ n) := by
  have inv := advancing_run queryKey env0 envs hq h0 h
  generalize (Session.run queryKey env0 envs) = acc at inv ⊢
  refine ⟨?_, fun hno env => fetchNext_noop env _ hno, inv.bound, ?_⟩
  · obtain ⟨lastPage, hl⟩ : ∃ lastPage, acc.2.pages.getLast? = some lastPage := by
      cases hl : acc.2.pages.getLast? with
      | none => exact absurd (List.getLast?_eq_none_iff.1 hl) inv.nonempty
      | some lastPage => exact ⟨lastPage, rfl⟩
    constructor
    · intro hno
      refine ⟨lastPage, hl, ?_⟩
      intro t ht
      by_contra hlt
      have hyes : hasNextPage acc.2.pages = true :=
        (hasNextPage_true_iff _).2 ⟨lastPage, t, hl, ht, by omega⟩
      rw [hno] at hyes
      cases hyes
    · rintro ⟨lastPage2, hl2, hle⟩
      cases hb : hasNextPage acc.2.pages
      · rfl
      · obtain ⟨lp, t, hl3, ht, hlt⟩ := (hasNextPage_true_iff _).1 hb
        rw [hl2] at hl3
        cases hl3
        have := hle t ht
        omega
  · intro n hn hall
    cases hd : acc.2.pages.dropLast.getLast? with
    | none =>
      have hnil := List.getLast?_eq_none_iff.1 hd
      have hlen : acc.2.pages.dropLast.length = 0 := by rw [hnil]; rfl
      rw [List.length_dropLast] at hlen
      omega
    | some prev =>
      obtain ⟨t, ht, hle⟩ := inv.bound prev hd
      have hmem : prev ∈ acc.2.pages :=
        List.dropLast_subset _ (List.mem_of_getLast?_eq_some hd)
      have := hall prev hmem
      rw [ht] at this
      cases this
      exact hle

/-- C9 amended, at a concrete input: a session whose pages report
`total_pages` 4, 3 and 3 stops at three pages; it never holds more pages than
the page before the last announced, and a further `fetchNext()` does nothing. -/
theorem session_pages_bounded_witness :
    (∀ env, Session.fetchNext env (Session.run ("movies", none) (Env.serving (sampleData 4))
        [Env.serving (sampleData 3), Env.serving (sampleData 3),
          Env.serving (sampleData 3)]).2 =
      ([], (Session.run ("movies", none) (Env.serving (sampleData 4))
        [Env.serving (sampleData 3), Env.serving (sampleData 3),
          Env.serving (sampleData 3)]).2)) ∧
    (Session.run ("movies", none) (Env.serving (sampleData 4))
      [Env.serving (sampleData 3), Env.serving (sampleData 3),
        Env.serving (sampleData 3)]).2.pages.length = 3 :=
  (fun h => ⟨h.2.1 (by decide), by decide⟩)
    (session_pages_bounded ("movies", none) (Env.serving (sampleData 4))
      [Env.serving (sampleData 3), Env.serving (sampleData 3), Env.serving (sampleData 3)]
      encodable_none (serving_succeeds _)
      (fun env he => by
        simp only [List.mem_cons, List.mem_singleton, List.mem_nil_iff, or_false, or_self] at he
        subst he
        exact serving_succeeds _))

/-- C10, as stated, fails. After a first page that announces three pages, a
`fetchNext()` answered with a non-success status leaves the session Failed with
its two fetched movies and a next page still known; the component rendered on
that state is the error paragraph alone: it shows no movie, the sentinel is not
mounted, the effect observes nothing, and an intersection event invokes
nothing. -/
theorem failed_state_unmounts_sentinel :
    (Session.run ("movies", none) (Env.serving (sampleData 3)) [Env.transportFails]).2.status =
      .Failed ∧
    (Session.run ("movies", none) (Env.serving (sampleData 3))
      [Env.transportFails]).2.currentItems = [sampleMovie, otherMovie] ∧
    hasNextPage (Session.run ("movies", none) (Env.serving (sampleData 3))
      [Env.transportFails]).2.pages = true ∧
    (Session.run ("movies", none) (Env.serving (sampleData 3))
      [Env.transportFails]).2.isFetchingNext = false ∧
    (Session.run ("movies", none) (Env.serving (sampleData 3)) [Env.transportFails]).2.view
        "loading" =
      .ok { heading := "All Movies",
            body := .errorText "text-red-500" "Failed to fetch movies" } ∧
    shownMovies ((Session.run ("movies", none) (Env.serving (sampleData 3))
      [Env.transportFails]).2.view "loading") = [] ∧
    observerTargetCurrent ((Session.run ("movies", none) (Env.serving (sampleData 3))
      [Env.transportFails]).2.view "loading") = false ∧
    observerEffect (observerTargetCurrent ((Session.run ("movies", none)
      (Env.serving (sampleData 3)) [Env.transportFails]).2.view "loading")) =
        [.create "20px" 0] ∧
    (Session.run ("movies", none) (Env.serving (sampleData 3))
      [Env.transportFails]).2.onIntersect "loading" [{ isIntersecting := true }] = .ok [] := by
  decide

/-- C10, amended: for every session state with a next page, no fetch in flight
and a term that can be escaped, a `fetchNext()` answered with a non-success
status sets the status to
Failed with the message "Failed to fetch movies" and leaves the fetched pages
and items unchanged, and a later `fetchNext()` that succeeds appends a page and
returns to Ready; but the component rendered in the Failed state is the error
paragraph alone, so the fetched movies are not shown, the sentinel is not
mounted and not observed, and no intersection event invokes `fetchNextPage`. -/
theorem failed_fetch_keeps_pages_but_hides_list (pendingLabel : String) (s : Session)
    (env : Env) (hnext : hasNextPage s.pages = true) (hidle : s.isFetchingNext = false)
    (hq : Encodable s.queryKey.2)
    (hfail : ∀ url, ∃ response, env.fetch url = .ok response ∧ response.ok = false) :
    (Session.fetchNext env s).2.status = .Failed ∧
    (Session.fetchNext env s).2.errorMessage = some "Failed to fetch movies" ∧
    (Session.fetchNext env s).2.pages = s.pages ∧
    (Session.fetchNext env s).2.currentItems = s.currentItems ∧
    (∀ env2 : Env, env2.Succeeds →
      (Session.fetchNext env2 (Session.fetchNext env s).2).2.status = .Ready ∧
      (Session.fetchNext env2 (Session.fetchNext env s).2).2.pages.length =
        s.pages.length + 1) ∧
    (Session.fetchNext env s).2.view pendingLabel =
      .ok { heading := "All Movies",
            body := .errorText "text-red-500" "Failed to fetch movies" } ∧
    shownMovies ((Session.fetchNext env s).2.view pendingLabel) = [] ∧
    observerTargetCurrent ((Session.fetchNext env s).2.view pendingLabel) = false ∧
    observerEffect (observerTargetCurrent ((Session.fetchNext env s).2.view pendingLabel)) =
      [.create "20px" 0] ∧
    ∀ entries, (Session.fetchNext env s).2.onIntersect pendingLabel entries = .ok [] := by
  obtain ⟨lastPage, t, hl, ht, hlt, hc⟩ := hasNextPage_cursor s.pages hnext
  obtain ⟨url, hurl⟩ :=
    endpoint_of_encodable s.queryKey.2 hq ((some lastPage.nextPage).getD 1)
  obtain ⟨response, hfetch, hok⟩ := hfail url
  have herr : (fetchMoviePage env (some lastPage.nextPage) s.queryKey).2 =
      .error "Failed to fetch movies" := by
    unfold fetchMoviePage
    simp only [hurl, hfetch, hok]
    rfl
  have hstep := fetchNext_of_error env s lastPage lastPage.nextPage _ hl hc hidle herr
  rw [hstep]
  have hview := view_of_failed pendingLabel
    { s with status := .Failed, errorMessage := some "Failed to fetch movies" }
    "Failed to fetch movies" rfl rfl
  refine ⟨rfl, rfl, rfl, rfl, ?_, hview, ?_, ?_, ?_, ?_⟩
  · intro env2 h2
    obtain ⟨data, hp⟩ :=
      fetchMoviePage_of_succeeds env2 h2 (some lastPage.nextPage) s.queryKey hq
    have hstep2 := fetchNext_of_ok env2
      { s with status := .Failed, errorMessage := some "Failed to fetch movies" }
      lastPage _ lastPage.nextPage hl hc hidle hp
    simp only at hstep2 ⊢
    rw [hstep2]
    exact ⟨rfl, by simp⟩
  · simp only at hview ⊢
    rw [hview]; rfl
  · simp only at hview ⊢
    rw [hview]; rfl
  · simp only at hview ⊢
    rw [hview]; rfl
  · intro entries
    exact onIntersect_of_failed pendingLabel _ "Failed to fetch movies" rfl rfl entries

/-- C10 amended, at a concrete input: the second fetch of a discover session
whose first page announced three pages is answered with a non-success
status. -/
theorem failed_fetch_keeps_pages_but_hides_list_witness :
    (Session.fetchNext Env.transportFails
      (Session.run ("movies", none) (Env.serving (sampleData 3)) []).2).2.status = .Failed ∧
    (Session.fetchNext Env.transportFails
      (Session.run ("movies", none) (Env.serving (sampleData 3)) []).2).2.currentItems =
        (Session.run ("movies", none) (Env.serving (sampleData 3)) []).2.currentItems ∧
    observerTargetCurrent ((Session.fetchNext Env.transportFails
      (Session.run ("movies", none) (Env.serving (sampleData 3)) []).2).2.view "loading") =
        false ∧
    (∀ entries, (Session.fetchNext Env.transportFails
      (Session.run ("movies", none) (Env.serving (sampleData 3)) []).2).2.onIntersect
        "loading" entries = .ok []) :=
  (fun h => ⟨h.1, h.2.2.2.1, h.2.2.2.2.2.2.2.1, h.2.2.2.2.2.2.2.2.2⟩)
    (failed_fetch_keeps_pages_but_hides_list "loading"
      (Session.run ("movies", none) (Env.serving (sampleData 3)) []).2 Env.transportFails
      (by decide) (by decide) encodable_none (fun _ => ⟨_, rfl, rfl⟩))

end AllMovies
